import Mathlib

/-!
Verification of the FAQ decision/scoring core of this repository.

The engine is shallowly embedded: Python strings become `List Char`,
Python `set`s of tokens become `Finset (List Char)`, float scores become
`ℚ` (the arithmetic the code performs is exact on the values involved),
and the fallible persistence collaborator becomes an `Except` value.
Each definition mirrors one function of the source
(`mcp_server/claude_reasoning_engine.py`, `mcp_server/analytics_logger.py`,
`faq_mcp_server.py`); line references are given at every definition.
-/

namespace FaqSpec

/-- Text is modelled as a list of characters. -/
abbrev Str := List Char

/-- Python whitespace class `\s` (ASCII range), as used by `str.split`,
`str.strip` and the regexes of the source. -/
def pyWs (c : Char) : Bool :=
  c = ' ' || c = '\t' || c = '\n' || c = '\r' || c = '\x0b' || c = '\x0c'

/-- Python regex word class `\w` (ASCII range): letters, digits, underscore.
Used by `re.findall(r"\b\w+\b", ...)` in `_calculate_relevance_score`. -/
def wordChar (c : Char) : Bool := c.isAlphanum || c = '_'

/-- `str.lower()` (ASCII range). -/
def lower (s : Str) : Str := s.map Char.toLower

/-- Helper for `runs`: accumulates the current run (reversed) in `cur`. -/
def runsAux (p : Char → Bool) (cur : Str) : List Char → List Str
  | [] => if cur.isEmpty then [] else [cur.reverse]
  | c :: rest =>
    if p c then runsAux p (c :: cur) rest
    else if cur.isEmpty then runsAux p [] rest
    else cur.reverse :: runsAux p [] rest

/-- The maximal runs of characters satisfying `p`, in order.
`runs wordChar s` is `re.findall(r"\b\w+\b", s)`;
`runs (fun c => !pyWs c) s` is Python `s.split()`. -/
def runs (p : Char → Bool) (s : Str) : List Str := runsAux p [] s

/-- Whether `p` occurs starting at the head of `s` (character-wise). -/
def leadsIn : Str → Str → Bool
  | [], _ => true
  | _ :: _, [] => false
  | a :: as, b :: bs => a = b && leadsIn as bs

/-- Python substring containment `p in s`. -/
def substrOf (p : Str) : Str → Bool
  | [] => leadsIn p []
  | c :: rest => leadsIn p (c :: rest) || substrOf p rest

/-- `ClaudeReasoningEngine._calculate_relevance_score`
(`claude_reasoning_engine.py` lines 112-130): tokenize both strings into
word tokens (as Python sets), return `0.0` on an empty query token set,
otherwise the overlap ratio, plus `0.3` if the lowercase query occurs
verbatim in the lowercase content, capped at `1.0`. -/
def calculate_relevance_score (query content : Str) : ℚ :=
  let query_words : Finset Str := (runs wordChar (lower query)).toFinset
  let content_words : Finset Str := (runs wordChar (lower content)).toFinset
  if query_words = ∅ then 0
  else
    let overlap : ℕ := (query_words ∩ content_words).card
    let score : ℚ := (overlap : ℚ) / (query_words.card : ℚ)
    let score' : ℚ :=
      if substrOf (lower query) (lower content) then score + 3/10 else score
    min score' 1

/-- The Relevance Scorer as worded by the spec (section 4.1): if the
query's token set is empty the score is 0; otherwise the score is
`|queryTokens ∩ contentTokens| / |queryTokens|`, with a 0.3 bonus added
exactly when the lowercase query appears verbatim as a substring of the
lowercase content, and the final score clamped to at most 1. -/
def score_spec (query content : Str) : ℚ :=
  let queryTokens : Finset Str := (runs wordChar (lower query)).toFinset
  let contentTokens : Finset Str := (runs wordChar (lower content)).toFinset
  if queryTokens = ∅ then 0
  else
    min (((queryTokens ∩ contentTokens).card : ℚ) / (queryTokens.card : ℚ)
          + (if substrOf (lower query) (lower content) then 3/10 else 0)) 1

/-! ### The best-tracking scan

Both `_simulate_claude_analysis` (scan over file sections) and
`_extract_best_answer` (scan over Q/A pairs) run the same loop: a running
best score starting at `0`, updated strictly (`if score > best_score`),
together with a payload recorded at each update.  `scanBestAux` is that
loop with the score and the payload bundled into one accumulator (the
Python locals `best_match_score`/`best_match_file`/`best_answer`/
`reasoning`, respectively `best_score`/`best_answer`, are always assigned
together). -/

def scanBestAux {α β : Type} (f : α → ℚ) (g : α → β) :
    ℚ × Option β → List α → ℚ × Option β
  | st, [] => st
  | st, x :: xs => scanBestAux f g (if f x > st.1 then (f x, some (g x)) else st) xs

/-- The running maximum of `f` over a list, seeded with `a`. -/
def foldMax {α : Type} (f : α → ℚ) (a : ℚ) (xs : List α) : ℚ :=
  xs.foldl (fun m x => max m (f x)) a

/-! ### The reasoning engine (`claude_reasoning_engine.py`)

`_simulate_claude_analysis` receives the knowledge base as one formatted
string and first splits it back into per-file sections (lines 60-77); a
section contributes a filename (from its header) and its content lines.
The embedding starts from that parsed form: a section is the pair
(filename, content lines after the header). -/

/-- A parsed file section: filename and the content lines after the
header line (Python `lines[1:]`). -/
abbrev Sec := Str × List Str

/-- Python `"\n".join(lines)`. -/
def joinNl (lines : List Str) : Str := List.intercalate ['\n'] lines

/-- The relevance label strings `"high"`/`"medium"`/`"low"`. -/
inductive Relevance where
  | high
  | medium
  | low
deriving DecidableEq

/-- The decision strings `"ANSWER"`/`"NO_ANSWER"`. -/
inductive Decision where
  | ANSWER
  | NO_ANSWER
deriving DecidableEq

/-- The `reasoning` string of `_simulate_claude_analysis`, modelled by the
values interpolated into it: initially `""` (`empty`); on each best-match
update, `"Found relevant content in (filename) with score (score)"`
(`found`); on NO_ANSWER, `"No sufficiently relevant content found. Best
score was (best), required minimum is (requiredMin)"` (`noneRelevant`). -/
inductive Reasoning where
  | empty
  | found (filename : Str) (score : ℚ)
  | noneRelevant (best : ℚ) (requiredMin : ℚ)
deriving DecidableEq

/-- Python `str.strip()` (ASCII whitespace). -/
def pyStrip (s : Str) : Str := ((s.dropWhile pyWs).reverse.dropWhile pyWs).reverse

/-- Python `":" in line`. -/
def hasColon (s : Str) : Bool := s.contains ':'

/-- Python `line.split(":", 1)[1]`: everything after the first colon. -/
def splitColonTail (s : Str) : Str := (s.dropWhile (fun c => !(c == ':'))).drop 1

/-- Python `line.startswith(c)` for a single character. -/
def headIs (c : Char) (s : Str) : Bool :=
  match s with
  | [] => false
  | d :: _ => d == c

/-- Python `if current_answer and current_question: qa_pairs.append(...)`
(`claude_reasoning_engine.py` lines 143-144 and 154-155). -/
def flushPair (curQ curA : Str) : List (Str × Str) :=
  if !curA.isEmpty && !curQ.isEmpty then [(curQ, curA)] else []

/-- The line loop of `_extract_best_answer`
(`claude_reasoning_engine.py` lines 135-155), accumulating the current
question and answer. -/
def parseAux : Str → Str → List Str → List (Str × Str)
  | curQ, curA, [] => flushPair curQ curA
  | curQ, curA, l :: rest =>
    let line := pyStrip l
    if headIs 'Q' line && hasColon line then
      flushPair curQ curA ++ parseAux (pyStrip (splitColonTail line)) [] rest
    else if headIs 'A' line && hasColon line then
      parseAux curQ (pyStrip (splitColonTail line)) rest
    else if !curA.isEmpty && !line.isEmpty && !(headIs 'Q' line) then
      parseAux curQ (curA ++ ' ' :: line) rest
    else
      parseAux curQ curA rest

/-- The `qa_pairs` list `_extract_best_answer` builds from the content
lines, in file order: (question, answer) pairs. -/
def parseQaPairs (content_lines : List Str) : List (Str × Str) :=
  parseAux [] [] content_lines

/-- The per-entry score of `_extract_best_answer` line 165:
`_calculate_relevance_score(query.lower(), question.lower())` — the
question text only, never the answer text. -/
def entryScore (query : Str) (p : Str × Str) : ℚ :=
  calculate_relevance_score (lower query) (lower p.1)

/-- The selection loop of `_extract_best_answer`
(`claude_reasoning_engine.py` lines 157-171) on the parsed `qa_pairs`:
keep the strictly best-scoring (question, answer) pair; if the tracked
`best_answer` is still falsy at the end (`None` or the empty string),
fall back to the first pair's answer.  `none` is returned only for an
empty pairs list (lines 157-158). -/
def extractFromPairs (query : Str) : List (Str × Str) → Option Str
  | [] => none
  | p0 :: rest =>
    let st := scanBestAux (entryScore query) Prod.snd (0, none) (p0 :: rest)
    some (match st.2 with
      | some a => if a.isEmpty then p0.2 else a
      | none => p0.2)

/-- `ClaudeReasoningEngine._extract_best_answer`
(`claude_reasoning_engine.py` lines 132-171). -/
def extract_best_answer (content_lines : List Str) (query : Str) : Option Str :=
  extractFromPairs query (parseQaPairs content_lines)

/-- The per-section score of `_simulate_claude_analysis` lines 77-80:
the query (already lowercased by the caller) against
`"\n".join(lines[1:]).lower()`. -/
def sectionScore (query : Str) (s : Sec) : ℚ :=
  calculate_relevance_score query (lower (joinNl s.2))

/-- The payload recorded alongside a best-match update
(`_simulate_claude_analysis` lines 82-88): the filename and the extracted
best answer.  The recorded reasoning string is reconstructed from this
payload and the final best score, since the loop always assigns the four
locals together. -/
def sectionPayload (query : Str) (s : Sec) : Str × Option Str :=
  (s.1, extract_best_answer s.2 query)

/-- The result dictionary of `_simulate_claude_analysis` (lines 104-110). -/
structure AnalysisResult where
  analysis : Reasoning
  best_match_file : Option Str
  relevance_score : Relevance
  decision : Decision
  answer : Option Str
deriving DecidableEq

/-- `ClaudeReasoningEngine._simulate_claude_analysis`
(`claude_reasoning_engine.py` lines 47-110) on the parsed sections: scan
all sections keeping the strictly best score (seed 0), then decide
`ANSWER` iff the best score exceeds `0.5`, label the relevance, and on
`NO_ANSWER` null the answer and overwrite the reasoning — but not the
best-match filename (lines 98-102 reset only `best_answer` and
`reasoning`). -/
def simulate_claude_analysis (query : Str) (sections : List Sec) : AnalysisResult :=
  let ql := lower query
  let st := scanBestAux (sectionScore ql) (sectionPayload ql) (0, none) sections
  if st.1 > 1/2 then
    { analysis := match st.2 with
        | some pl => Reasoning.found pl.1 st.1
        | none => Reasoning.empty
      best_match_file := st.2.map Prod.fst
      relevance_score :=
        if st.1 > 4/5 then Relevance.high
        else if st.1 > 3/5 then Relevance.medium
        else Relevance.low
      decision := Decision.ANSWER
      answer := st.2.bind Prod.snd }
  else
    { analysis := Reasoning.noneRelevant st.1 (1/2)
      best_match_file := st.2.map Prod.fst
      relevance_score := Relevance.low
      decision := Decision.NO_ANSWER
      answer := none }

/-- Spec section 4.2: the best (maximum) score over all files. -/
def bestScore (query : Str) (sections : List Sec) : ℚ :=
  foldMax (sectionScore (lower query)) 0 sections

/-- Spec section 4.2: the winning file — the first section attaining the
maximum score, provided some section scored above the seed 0. -/
def bestSection (query : Str) (sections : List Sec) : Option Sec :=
  if 0 < bestScore query sections then
    sections.find?
      (fun s => decide (sectionScore (lower query) s = bestScore query sections))
  else none

/-- Spec section 4.3: the maximum per-entry score over the parsed pairs. -/
def maxEntryScore (query : Str) (qa : List (Str × Str)) : ℚ :=
  foldMax (entryScore query) 0 qa

/-- Spec section 4.3: the first entry (in file order) attaining the
maximum per-entry score. -/
def bestQaEntry (query : Str) (qa : List (Str × Str)) : Option (Str × Str) :=
  qa.find? (fun p => decide (entryScore query p = maxEntryScore query qa))

/-! ### The transport entry point (`faq_mcp_server.py`) -/

/-- The response dictionary of `handle_query`
(`faq_mcp_server.py` lines 137-197), by its `status` field:
`error` (with its `message`), `success` (with `answer`, `source_file`
and the formatted reasoning) or `no_answer` (fixed message plus the
formatted reasoning).  Timing fields are external effects and are not
modelled. -/
inductive QueryResponse where
  | error (message : Str)
  | success (answer : Option Str) (source_file : Option Str) (reasoning : Reasoning)
  | no_answer (reasoning : Reasoning)
deriving DecidableEq

/-- Python `not query or not query.strip()`: the query is empty or
whitespace-only. -/
def pyBlank (query : Str) : Bool := query.all pyWs

def msgEmptyQuery : Str := "Query cannot be empty".data

def msgNoContent : Str := "No FAQ content available".data

/-- `handle_query` (`faq_mcp_server.py` lines 132-208) over the loaded
knowledge base `kb` (the parsed sections): reject a blank query (lines
138-143), report an error when no FAQ content is loaded (lines 148-156;
the reload attempt is an external effect), otherwise run the analysis
and wrap its outcome (lines 173-197). -/
def handle_query (query : Str) (kb : List Sec) : QueryResponse :=
  if pyBlank query then QueryResponse.error msgEmptyQuery
  else if kb.isEmpty then QueryResponse.error msgNoContent
  else
    let analysis_result := simulate_claude_analysis query kb
    if analysis_result.decision = Decision.ANSWER then
      QueryResponse.success analysis_result.answer analysis_result.best_match_file
        analysis_result.analysis
    else
      QueryResponse.no_answer analysis_result.analysis

/-! ### The analytics logger (`analytics_logger.py`) -/

/-- A row of the `unanswered_questions` table, as created and mutated by
`log_unanswered_question`.  Timestamps are modelled as naturals; `id` is
the primary key assigned on insert. -/
structure UnansweredQuestion where
  id : ℕ
  question : Str
  frequency : ℕ
  priority : Str
  category : Str
  status : Str
  business_impact : Str
  last_asked : ℕ
deriving DecidableEq

/-- `AnalyticsLogger._normalize_text` (`analytics_logger.py` lines
330-336): lowercase, drop characters outside `[a-zA-Z0-9\s]`, collapse
whitespace runs to single spaces. -/
def normalize_text (t : Str) : Str :=
  List.intercalate [' ']
    (runs (fun c => !pyWs c) ((lower t).filter (fun c => c.isAlphanum || pyWs c)))

/-- `set(self._normalize_text(text).split())` (lines 220 and 223-225). -/
def tokensOf (t : Str) : Finset Str :=
  (runs (fun c => !pyWs c) (normalize_text t)).toFinset

/-- The candidate loop of `_find_similar_question` (`analytics_logger.py`
lines 222-236): for each existing question in order, if the union of the
token sets is nonempty and the Jaccard similarity exceeds `0.7`, return
that question immediately; otherwise keep scanning; `none` after the last
candidate. -/
def findSimilarScan (question_words : Finset Str) :
    List UnansweredQuestion → Option UnansweredQuestion
  | [] => none
  | existing :: rest =>
    if 0 < (question_words ∪ tokensOf existing.question).card ∧
        ((question_words ∩ tokensOf existing.question).card : ℚ)
          / ((question_words ∪ tokensOf existing.question).card : ℚ) > 7/10 then
      some existing
    else findSimilarScan question_words rest

/-- `AnalyticsLogger._find_similar_question` (lines 203-236) on an
already-fetched candidate list. -/
def find_similar_question (question_text : Str)
    (existing_questions : List UnansweredQuestion) : Option UnansweredQuestion :=
  findSimilarScan (tokensOf question_text) existing_questions

/-- The spec's Jaccard similarity (section 4.4): `|A∩B| / |A∪B|`, and `0`
on an empty union. -/
def jaccard_sim (a b : Str) : ℚ :=
  if (tokensOf a ∪ tokensOf b).card = 0 then 0
  else ((tokensOf a ∩ tokensOf b).card : ℚ) / ((tokensOf a ∪ tokensOf b).card : ℚ)

/-- The status filter of the candidate query (lines 213-217):
`status.in_(["pending", "in_progress"])`. -/
def isOpenStatus (e : UnansweredQuestion) : Bool :=
  e.status == "pending".data || e.status == "in_progress".data

/-- `_find_similar_question` including its fallible database fetch: the
session query of lines 211-217 either returns the table rows or raises;
the enclosing `try/except` (lines 238-240) catches any failure, logs it,
and returns `None` — the same value as "no similar question found". -/
def find_similar_question_r (question_text : Str)
    (fetched : Except Str (List UnansweredQuestion)) : Option UnansweredQuestion :=
  match fetched with
  | Except.error _ => none
  | Except.ok rows => find_similar_question question_text (rows.filter isOpenStatus)

/-- `any(keyword in question_lower for keyword in keywords)`. -/
def anyKeyword (keywords : List Str) (s : Str) : Bool :=
  keywords.any (fun k => substrOf k s)

def urgent_keywords : List Str :=
  (["urgent", "emergency", "critical", "broken", "down", "error", "failed",
    "crash"] : List String).map String.data

def high_keywords : List Str :=
  (["billing", "payment", "subscription", "account", "login", "access",
    "security"] : List String).map String.data

def medium_keywords : List Str :=
  (["device", "sync", "connection", "setup", "install", "update"] :
    List String).map String.data

/-- `AnalyticsLogger._calculate_priority` (`analytics_logger.py` lines
242-282): case-insensitive substring containment against the fixed
keyword sets, in the order urgent, high, medium; first hit wins;
default `"low"`. -/
def calculate_priority (question_text : Str) : Str :=
  let question_lower := lower question_text
  if anyKeyword urgent_keywords question_lower then "urgent".data
  else if anyKeyword high_keywords question_lower then "high".data
  else if anyKeyword medium_keywords question_lower then "medium".data
  else "low".data

/-- The category keyword table of `_categorize_question` (lines 292-322),
in insertion order; the `general` entry has no keywords. -/
def categories : List (Str × List Str) :=
  [("account_management".data,
    (["account", "profile", "login", "password", "signup", "register"] :
      List String).map String.data),
   ("billing_payments".data,
    (["billing", "payment", "subscription", "plan", "charge", "invoice"] :
      List String).map String.data),
   ("technical_issues".data,
    (["error", "bug", "broken", "fix", "issue", "problem", "crash"] :
      List String).map String.data),
   ("device_setup".data,
    (["device", "setup", "install", "connect", "sync", "pair"] :
      List String).map String.data),
   ("mobile_app".data,
    (["app", "mobile", "android", "ios", "phone"] : List String).map String.data),
   ("privacy_security".data,
    (["privacy", "security", "data", "encryption", "safe"] :
      List String).map String.data),
   ("general".data, [])]

/-- `AnalyticsLogger._categorize_question` (lines 284-328): first category
whose keyword set has a substring hit; `"general"` otherwise. -/
def categorize_question (question_text : Str) : Str :=
  match categories.find? (fun p => anyKeyword p.2 (lower question_text)) with
  | some p => p.1
  | none => "general".data

/-- The row built by `UnansweredQuestion(...)` (lines 121-128); the id and
the timestamp are assigned by the database and passed as parameters. -/
def mkNewQuestion (question_text : Str) (newId now : ℕ) : UnansweredQuestion :=
  { id := newId
    question := question_text
    frequency := 1
    priority := calculate_priority question_text
    category := categorize_question question_text
    status := "pending".data
    business_impact := "medium".data
    last_asked := now }

/-- The outcome of `log_unanswered_question`: the updated table and the
returned boolean. -/
structure LogResult where
  db : List UnansweredQuestion
  ok : Bool
deriving DecidableEq

/-- `AnalyticsLogger.log_unanswered_question` (`analytics_logger.py`
lines 87-138) over the backlog table `db`.  The candidate fetch inside
`_find_similar_question` may fail (`scanFailure`); a failure is swallowed
there.  On a similar-question hit, increment that row's frequency and set
`last_asked` (lines 108-115); otherwise insert a freshly classified row
(lines 117-131).  Both paths commit and return `True`. -/
def log_unanswered_question (question_text : Str) (db : List UnansweredQuestion)
    (scanFailure : Option Str) (now newId : ℕ) : LogResult :=
  let fetched : Except Str (List UnansweredQuestion) :=
    match scanFailure with
    | some e => Except.error e
    | none => Except.ok db
  match find_similar_question_r question_text fetched with
  | some similar =>
    { db := db.map (fun x =>
        if x.id = similar.id then
          { x with frequency := x.frequency + 1, last_asked := now }
        else x)
      ok := true }
  | none =>
    { db := db ++ [mkNewQuestion question_text newId now], ok := true }

/-! ### Concrete fixtures used by witnesses and counterexamples -/

/-- A query that partially overlaps the billing section: 1 of 3 tokens. -/
def qRefund : Str := "refund policy please".data

/-- A one-line billing section scoring 1/3 against `qRefund`. -/
def secBilling : Sec := ("billing.txt".data, ["refund money back".data])

/-- A query equal to the single content line of `secNoEntries`. -/
def qReset : Str := "how do i reset my password".data

/-- A section whose content parses to zero Q/A entries but scores 1
against `qReset`. -/
def secNoEntries : Sec := ("faq.txt".data, [qReset])

/-- A single Q/A entry sharing no token with `qZzz`. -/
def entryHours : Str × Str :=
  ("what are the opening hours".data, "we open at nine".data)

/-- A query sharing no token with `entryHours`. -/
def qZzz : Str := "zzz".data

/-- New question text for the deduplication counterexample. -/
def qAlpha : Str := "alpha beta gamma delta".data

/-- An open backlog item whose question has Jaccard similarity 4/5 with
`qAlpha`. -/
def uqAlphaLong : UnansweredQuestion :=
  { id := 1
    question := "alpha beta gamma delta epsilon".data
    frequency := 1
    priority := "low".data
    category := "general".data
    status := "pending".data
    business_impact := "medium".data
    last_asked := 0 }

/-- An open backlog item whose question has Jaccard similarity 1 with
`qAlpha`. -/
def uqAlphaExact : UnansweredQuestion :=
  { id := 2
    question := "alpha beta gamma delta".data
    frequency := 1
    priority := "low".data
    category := "general".data
    status := "pending".data
    business_impact := "medium".data
    last_asked := 0 }

/-- An open backlog item matching `qReset` with similarity 1 after
normalization. -/
def uqReset : UnansweredQuestion :=
  { id := 1
    question := "How do I reset my password?".data
    frequency := 1
    priority := "high".data
    category := "account_management".data
    status := "pending".data
    business_impact := "medium".data
    last_asked := 0 }

/-! ## Theorems -/

theorem score_eq_spec (q c : Str) :
    calculate_relevance_score q c = score_spec q c := by
  unfold calculate_relevance_score score_spec
  by_cases h : (runs wordChar (lower q)).toFinset = (∅ : Finset Str)
  · simp [h]
  · by_cases hs : substrOf (lower q) (lower c) <;> simp [h, hs]

theorem score_nonneg (q c : Str) : 0 ≤ calculate_relevance_score q c := by
  unfold calculate_relevance_score
  by_cases h : (runs wordChar (lower q)).toFinset = (∅ : Finset Str)
  · simp [h]
  · simp only [h, if_false]
    refine le_min ?_ (by norm_num)
    by_cases hs : substrOf (lower q) (lower c) <;> simp only [hs, if_true, if_false] <;>
      positivity

theorem score_le_one (q c : Str) : calculate_relevance_score q c ≤ 1 := by
  unfold calculate_relevance_score
  by_cases h : (runs wordChar (lower q)).toFinset = (∅ : Finset Str)
  · simp [h]
  · by_cases hs : substrOf (lower q) (lower c) <;>
      simp [h, hs, min_le_right]

/-- Evaluation helper: the score at a concrete input, given the token
counts and the substring test. -/
theorem score_eval (q c : Str) (o n : ℕ) (b : Bool)
    (ho : (((runs wordChar (lower q)).toFinset ∩ (runs wordChar (lower c)).toFinset).card) = o)
    (hn : ((runs wordChar (lower q)).toFinset.card) = n)
    (hb : substrOf (lower q) (lower c) = b)
    (hne : (runs wordChar (lower q)).toFinset ≠ ∅) :
    calculate_relevance_score q c
      = min ((o : ℚ)/(n : ℚ) + (if b then 3/10 else 0)) 1 := by
  unfold calculate_relevance_score
  simp only [if_neg hne, ho, hn, hb]
  cases b <;> simp

theorem foldMax_nil {α : Type} (f : α → ℚ) (a : ℚ) : foldMax f a [] = a := rfl

theorem foldMax_cons {α : Type} (f : α → ℚ) (a : ℚ) (x : α) (xs : List α) :
    foldMax f a (x :: xs) = foldMax f (max a (f x)) xs := rfl

theorem le_foldMax_init {α : Type} (f : α → ℚ) (xs : List α) :
    ∀ a : ℚ, a ≤ foldMax f a xs := by
  induction xs with
  | nil => intro a; simp [foldMax_nil]
  | cons x xs ih =>
    intro a
    calc a ≤ max a (f x) := le_max_left _ _
    _ ≤ foldMax f (max a (f x)) xs := ih _
    _ = foldMax f a (x :: xs) := (foldMax_cons f a x xs).symm

theorem le_foldMax_of_mem {α : Type} (f : α → ℚ) (xs : List α) :
    ∀ (a : ℚ) (x : α), x ∈ xs → f x ≤ foldMax f a xs := by
  induction xs with
  | nil => intro a x hx; cases hx
  | cons y ys ih =>
    intro a x hx
    rw [foldMax_cons]
    rcases List.mem_cons.mp hx with h | h
    · subst h
      exact le_trans (le_max_right _ _) (le_foldMax_init f ys _)
    · exact ih _ x h

theorem foldMax_le {α : Type} (f : α → ℚ) (xs : List α) :
    ∀ a : ℚ, (∀ x ∈ xs, f x ≤ a) → foldMax f a xs ≤ a := by
  induction xs with
  | nil => intro a _; simp [foldMax_nil]
  | cons y ys ih =>
    intro a h
    rw [foldMax_cons]
    have hy : f y ≤ a := h y (List.mem_cons_self _ _)
    rw [max_eq_left hy]
    exact ih a (fun x hx => h x (List.mem_cons_of_mem _ hx))

theorem foldMax_attained {α : Type} (f : α → ℚ) (xs : List α) :
    ∀ a : ℚ, foldMax f a xs = a ∨ ∃ x ∈ xs, foldMax f a xs = f x := by
  induction xs with
  | nil => intro a; left; rfl
  | cons y ys ih =>
    intro a
    rw [foldMax_cons]
    rcases ih (max a (f y)) with h | ⟨x, hx, hfx⟩
    · rw [h]
      rcases max_cases a (f y) with ⟨h1, _⟩ | ⟨h1, _⟩
      · left; exact h1
      · right; exact ⟨y, List.mem_cons_self _ _, h1⟩
    · right; exact ⟨x, List.mem_cons_of_mem _ hx, hfx⟩

theorem scanBestAux_fst {α β : Type} (f : α → ℚ) (g : α → β) (xs : List α) :
    ∀ st : ℚ × Option β, (scanBestAux f g st xs).1 = foldMax f st.1 xs := by
  induction xs with
  | nil => intro st; rfl
  | cons x xs ih =>
    intro st
    rw [scanBestAux, foldMax_cons]
    by_cases h : f x > st.1
    · rw [if_pos h, ih]
      have : max st.1 (f x) = f x := max_eq_right (le_of_lt h)
      rw [this]
    · rw [if_neg h, ih]
      have : max st.1 (f x) = st.1 := max_eq_left (le_of_not_lt h)
      rw [this]

theorem scanBestAux_snd {α β : Type} (f : α → ℚ) (g : α → β) (xs : List α) :
    ∀ st : ℚ × Option β,
      (scanBestAux f g st xs).2 =
        if st.1 < foldMax f st.1 xs then
          (xs.find? (fun x => decide (foldMax f st.1 xs ≤ f x))).map g
        else st.2 := by
  induction xs with
  | nil => intro st; simp [scanBestAux, foldMax_nil]
  | cons x xs ih =>
    intro st
    rw [scanBestAux, foldMax_cons]
    by_cases h : f x > st.1
    · rw [if_pos h]
      have hmax : max st.1 (f x) = f x := max_eq_right (le_of_lt h)
      rw [hmax, ih]
      dsimp only
      have hM : f x ≤ foldMax f (f x) xs := le_foldMax_init f xs (f x)
      have hout : st.1 < foldMax f (f x) xs := lt_of_lt_of_le h hM
      rw [if_pos hout]
      by_cases hx : foldMax f (f x) xs ≤ f x
      · have hfix : foldMax f (f x) xs = f x := le_antisymm hx hM
        rw [if_neg (by rw [hfix]; exact lt_irrefl _)]
        rw [List.find?_cons_of_pos _ (by simpa using hx)]
        rfl
      · rw [if_pos (lt_of_not_le hx)]
        rw [List.find?_cons_of_neg _ (by simpa using hx)]
    · rw [if_neg h]
      have hmax : max st.1 (f x) = st.1 := max_eq_left (le_of_not_lt h)
      rw [hmax, ih]
      by_cases hout : st.1 < foldMax f st.1 xs
      · rw [if_pos hout, if_pos hout]
        have hx : ¬ foldMax f st.1 xs ≤ f x :=
          not_le_of_lt (lt_of_le_of_lt (le_of_not_lt h) hout)
        rw [List.find?_cons_of_neg _ (by simpa using hx)]
      · rw [if_neg hout, if_neg hout]

/-- When every score is at most `st.1` (in particular when all scores are
`0` and the seed is `0`), the scan never updates. -/
theorem scanBestAux_snd_of_le {α β : Type} (f : α → ℚ) (g : α → β) (xs : List α)
    (st : ℚ × Option β) (h : ∀ x ∈ xs, f x ≤ st.1) :
    (scanBestAux f g st xs).2 = st.2 := by
  rw [scanBestAux_snd]
  rw [if_neg (not_lt_of_le (foldMax_le f xs st.1 h))]

theorem find?_pointwise {α : Type} (xs : List α) (p q : α → Bool)
    (h : ∀ x ∈ xs, p x = q x) : xs.find? p = xs.find? q := by
  induction xs with
  | nil => rfl
  | cons y ys ih =>
    have hy := h y (List.mem_cons_self _ _)
    cases hq : q y
    · have hp : p y = false := by rw [hy, hq]
      rw [List.find?_cons_of_neg _ (by simp [hp]), List.find?_cons_of_neg _ (by simp [hq])]
      exact ih (fun x hx => h x (List.mem_cons_of_mem _ hx))
    · have hp : p y = true := by rw [hy, hq]
      rw [List.find?_cons_of_pos _ hp, List.find?_cons_of_pos _ hq]

theorem sim_st_fst (q : Str) (secs : List Sec) :
    (scanBestAux (sectionScore (lower q)) (sectionPayload (lower q)) (0, none) secs).1
      = bestScore q secs := by
  rw [scanBestAux_fst]; rfl

theorem sim_st_snd (q : Str) (secs : List Sec) :
    (scanBestAux (sectionScore (lower q)) (sectionPayload (lower q)) (0, none) secs).2
      = (bestSection q secs).map (sectionPayload (lower q)) := by
  rw [scanBestAux_snd]
  dsimp only
  unfold bestSection bestScore
  by_cases h0 : 0 < foldMax (sectionScore (lower q)) 0 secs
  · rw [if_pos h0, if_pos h0]
    congr 1
    apply find?_pointwise
    intro x hx
    have hle : sectionScore (lower q) x ≤ foldMax (sectionScore (lower q)) 0 secs :=
      le_foldMax_of_mem _ secs 0 x hx
    simp only [decide_eq_decide]
    exact ⟨fun h => le_antisymm hle h, fun h => le_of_eq h.symm⟩
  · rw [if_neg h0, if_neg h0]; rfl

theorem simulate_decision (q : Str) (secs : List Sec) :
    (simulate_claude_analysis q secs).decision
      = if bestScore q secs > 1/2 then Decision.ANSWER else Decision.NO_ANSWER := by
  simp only [simulate_claude_analysis]
  rw [sim_st_fst]
  by_cases h : bestScore q secs > 1/2
  · rw [if_pos h, if_pos h]
  · rw [if_neg h, if_neg h]

theorem simulate_relevance (q : Str) (secs : List Sec) :
    (simulate_claude_analysis q secs).relevance_score
      = (if bestScore q secs > 1/2 then
           (if bestScore q secs > 4/5 then Relevance.high
            else if bestScore q secs > 3/5 then Relevance.medium
            else Relevance.low)
         else Relevance.low) := by
  simp only [simulate_claude_analysis]
  rw [sim_st_fst]
  by_cases h : bestScore q secs > 1/2
  · rw [if_pos h, if_pos h]
  · rw [if_neg h, if_neg h]

theorem simulate_file (q : Str) (secs : List Sec) :
    (simulate_claude_analysis q secs).best_match_file
      = (bestSection q secs).map Prod.fst := by
  simp only [simulate_claude_analysis]
  rw [sim_st_fst, sim_st_snd]
  by_cases h : bestScore q secs > 1/2
  · rw [if_pos h]
    cases bestSection q secs <;> rfl
  · rw [if_neg h]
    cases bestSection q secs <;> rfl

theorem simulate_analysis_of_no_answer (q : Str) (secs : List Sec)
    (h : ¬ bestScore q secs > 1/2) :
    (simulate_claude_analysis q secs).analysis
      = Reasoning.noneRelevant (bestScore q secs) (1/2) := by
  simp only [simulate_claude_analysis]
  rw [sim_st_fst, if_neg h]

/-- **C1.** The Relevance Scorer of `_calculate_relevance_score` computes
exactly the spec's formula: 0 on an empty query token set, otherwise the
overlap ratio `|queryTokens ∩ contentTokens| / |queryTokens|` with a 0.3
bonus exactly when the lowercase query is a verbatim substring of the
lowercase content, clamped to at most 1.0; and the score always lies in
the interval `[0, 1]`. -/
theorem relevance_score_matches_spec_and_bounded (q c : Str) :
    calculate_relevance_score q c = score_spec q c ∧
    0 ≤ calculate_relevance_score q c ∧
    calculate_relevance_score q c ≤ 1 :=
  ⟨score_eq_spec q c, score_nonneg q c, score_le_one q c⟩

/-- **C2.** The File Matcher (`_simulate_claude_analysis`): the decision
is `ANSWER` exactly when the best section score exceeds `0.5`; the
best-match file recorded by the scan is the first section attaining the
maximum score (ties keep the first file encountered; no file when every
score is 0); the relevance label is `high` for scores above `0.8`,
`medium` for scores in `(0.6, 0.8]`, and `low` otherwise (in particular
on `NO_ANSWER`); and on `NO_ANSWER` the rationale reports the best score
observed and the required minimum `0.5`. -/
theorem file_matcher_matches_spec (q : Str) (secs : List Sec) :
    ((simulate_claude_analysis q secs).decision = Decision.ANSWER ↔
        bestScore q secs > 1/2) ∧
    (simulate_claude_analysis q secs).best_match_file
      = (bestSection q secs).map Prod.fst ∧
    (simulate_claude_analysis q secs).relevance_score
      = (if bestScore q secs > 1/2 then
           (if bestScore q secs > 4/5 then Relevance.high
            else if bestScore q secs > 3/5 then Relevance.medium
            else Relevance.low)
         else Relevance.low) ∧
    ((simulate_claude_analysis q secs).decision = Decision.NO_ANSWER →
      (simulate_claude_analysis q secs).analysis
        = Reasoning.noneRelevant (bestScore q secs) (1/2)) := by
  refine ⟨?_, simulate_file q secs, simulate_relevance q secs, ?_⟩
  · rw [simulate_decision]
    by_cases h : bestScore q secs > 1/2
    · simp [h]
    · simp [h]
  · intro hdec
    apply simulate_analysis_of_no_answer
    intro h
    rw [simulate_decision, if_pos h] at hdec
    exact Decision.noConfusion hdec

theorem secBilling_score :
    sectionScore (lower qRefund) secBilling = 1/3 := by
  unfold sectionScore qRefund secBilling
  rw [score_eval _ _ 1 3 false (by decide) (by decide) (by decide) (by decide)]
  norm_num

theorem bestScore_qRefund : bestScore qRefund [secBilling] = 1/3 := by
  simp [bestScore, foldMax, secBilling_score]

/-- Witness for C2 at a concrete input: `qRefund` against the single
section `secBilling` scores `1/3 ≤ 0.5`, so the decision is `NO_ANSWER`
and the rationale carries the best score `1/3` and the minimum `0.5`. -/
theorem file_matcher_matches_spec_witness :
    (simulate_claude_analysis qRefund [secBilling]).analysis
      = Reasoning.noneRelevant (1/3) (1/2) := by
  have hdec : (simulate_claude_analysis qRefund [secBilling]).decision
      = Decision.NO_ANSWER := by
    rw [simulate_decision, bestScore_qRefund]; norm_num
  have h := (file_matcher_matches_spec qRefund [secBilling]).2.2.2 hdec
  rw [h, bestScore_qRefund]

/-- **C3.** Contrary to the spec, `_simulate_claude_analysis` does not
unset `best_match_file` on `NO_ANSWER`: lines 98-102 reset only
`best_answer` and `reasoning`.  At the concrete input below the decision
is `NO_ANSWER` (best score `1/3`), the answer is unset, but the file
field still holds `billing.txt` — while the engine's own response format
(lines 26-33) documents `best_match_file` as `null if no good match`. -/
theorem no_answer_retains_best_match_file :
    (simulate_claude_analysis qRefund [secBilling]).decision = Decision.NO_ANSWER ∧
    (simulate_claude_analysis qRefund [secBilling]).best_match_file
      = some "billing.txt".data ∧
    (simulate_claude_analysis qRefund [secBilling]).answer = none := by
  norm_num [simulate_claude_analysis, scanBestAux, secBilling_score, sectionPayload]
  rfl


theorem extractFromPairs_cons (query : Str) (p0 : Str × Str) (rest : List (Str × Str)) :
    extractFromPairs query (p0 :: rest)
      = some (match (scanBestAux (entryScore query) Prod.snd (0, none) (p0 :: rest)).2 with
          | some a => if a.isEmpty then p0.2 else a
          | none => p0.2) := rfl

/-- **C4.** The Answer Extractor (`_extract_best_answer`) on a non-empty
entry list whose answers are non-empty (as the parser guarantees): it
scores the query against each entry's question text only, returns the
answer of the first entry attaining the maximum score (ties keep the
first entry in file order), and when every entry scores 0 it returns the
first entry's answer as the documented fallback rather than failing. -/
theorem answer_extractor_matches_spec (query : Str) (p0 : Str × Str)
    (rest : List (Str × Str)) (hans : ∀ p ∈ p0 :: rest, p.2 ≠ ([] : Str)) :
    extractFromPairs query (p0 :: rest)
      = (bestQaEntry query (p0 :: rest)).map Prod.snd ∧
    ((∀ p ∈ p0 :: rest, entryScore query p = 0) →
      extractFromPairs query (p0 :: rest) = some p0.2) := by
  have hnn : ∀ p ∈ p0 :: rest, (0:ℚ) ≤ entryScore query p := fun p _ => score_nonneg _ _
  have hM0 : (0:ℚ) ≤ foldMax (entryScore query) 0 (p0 :: rest) :=
    le_foldMax_init _ _ 0
  have hst := scanBestAux_snd (entryScore query) Prod.snd (p0 :: rest) (0, none)
  dsimp only at hst
  have hmain : extractFromPairs query (p0 :: rest)
      = (bestQaEntry query (p0 :: rest)).map Prod.snd := by
    by_cases hpos : 0 < foldMax (entryScore query) 0 (p0 :: rest)
    · rw [if_pos hpos] at hst
      have hfind : (p0 :: rest).find?
            (fun p => decide (foldMax (entryScore query) 0 (p0 :: rest) ≤ entryScore query p))
          = (p0 :: rest).find?
            (fun p => decide (entryScore query p = foldMax (entryScore query) 0 (p0 :: rest))) := by
        apply find?_pointwise
        intro x hx
        have hle := le_foldMax_of_mem (entryScore query) (p0 :: rest) 0 x hx
        simp only [decide_eq_decide]
        exact ⟨fun h => le_antisymm hle h, fun h => le_of_eq h.symm⟩
      have hex : ∃ x ∈ p0 :: rest,
          entryScore query x = foldMax (entryScore query) 0 (p0 :: rest) := by
        rcases foldMax_attained (entryScore query) (p0 :: rest) 0 with h | ⟨x, hx, hfx⟩
        · rw [h] at hpos; exact absurd hpos (lt_irrefl 0)
        · exact ⟨x, hx, hfx.symm⟩
      obtain ⟨xb, hxbmem, hxbeq⟩ := hex
      have hsome : ∃ pb, (p0 :: rest).find?
          (fun p => decide (entryScore query p = foldMax (entryScore query) 0 (p0 :: rest)))
            = some pb := by
        cases hcase : (p0 :: rest).find?
            (fun p => decide (entryScore query p = foldMax (entryScore query) 0 (p0 :: rest))) with
        | none =>
          exfalso
          have := List.find?_eq_none.mp hcase xb hxbmem
          simp [hxbeq] at this
        | some pb => exact ⟨pb, rfl⟩
      obtain ⟨pb, hpb⟩ := hsome
      have hpbmem : pb ∈ p0 :: rest := List.mem_of_find?_eq_some hpb
      have hpbans : pb.2 ≠ ([] : Str) := hans pb hpbmem
      have hempty : pb.2.isEmpty = false := by
        cases hpb2 : pb.2 with
        | nil => exact absurd hpb2 hpbans
        | cons a l => rfl
      rw [hfind, hpb] at hst
      rw [extractFromPairs_cons, hst]
      unfold bestQaEntry maxEntryScore
      rw [hpb]
      show some (if pb.2.isEmpty then p0.2 else pb.2) = some pb.2
      rw [hempty]
      simp
    · have hMz : foldMax (entryScore query) 0 (p0 :: rest) = 0 :=
        le_antisymm (le_of_not_lt hpos) hM0
      rw [if_neg hpos] at hst
      rw [extractFromPairs_cons, hst]
      unfold bestQaEntry maxEntryScore
      have hz0 : entryScore query p0 = 0 := by
        have h1 := le_foldMax_of_mem (entryScore query) (p0 :: rest) 0 p0
          (List.mem_cons_self _ _)
        rw [hMz] at h1
        exact le_antisymm h1 (hnn p0 (List.mem_cons_self _ _))
      rw [List.find?_cons_of_pos _ (by simp [hz0, hMz])]
      rfl
  refine ⟨hmain, fun hz => ?_⟩
  have hMz : foldMax (entryScore query) 0 (p0 :: rest) = 0 :=
    le_antisymm (foldMax_le _ _ 0 (fun x hx => le_of_eq (hz x hx))) hM0
  rw [hmain]
  unfold bestQaEntry maxEntryScore
  rw [List.find?_cons_of_pos _ (by simp [hz p0 (List.mem_cons_self _ _), hMz])]
  rfl

theorem entryHours_score_zzz : entryScore qZzz entryHours = 0 := by
  unfold entryScore qZzz entryHours
  rw [score_eval _ _ 0 1 false (by decide) (by decide) (by decide) (by decide)]
  norm_num

theorem answer_extractor_witness :
    extractFromPairs qZzz [entryHours] = some "we open at nine".data := by
  have h := (answer_extractor_matches_spec qZzz entryHours [] (by decide)).2
    (fun p hp => by
      rw [List.mem_singleton] at hp
      rw [hp]
      exact entryHours_score_zzz)
  exact h


theorem simulate_answer (q : Str) (secs : List Sec) :
    (simulate_claude_analysis q secs).answer
      = (if bestScore q secs > 1/2 then
          ((bestSection q secs).map (sectionPayload (lower q))).bind Prod.snd
         else none) := by
  simp only [simulate_claude_analysis]
  rw [sim_st_fst, sim_st_snd]
  by_cases h : bestScore q secs > 1/2
  · rw [if_pos h, if_pos h]
  · rw [if_neg h, if_neg h]

theorem secNoEntries_score : sectionScore (lower qReset) secNoEntries = 1 := by
  unfold sectionScore qReset secNoEntries
  rw [score_eval _ _ 6 6 true (by decide) (by decide) (by decide) (by decide)]
  norm_num

theorem bestScore_qReset : bestScore qReset [secNoEntries] = 1 := by
  simp [bestScore, foldMax, secNoEntries_score]

theorem bestSection_qReset : bestSection qReset [secNoEntries] = some secNoEntries := by
  unfold bestSection
  rw [bestScore_qReset, if_pos (by norm_num)]
  rw [List.find?_cons_of_pos _ (by simp [secNoEntries_score])]

/-- **C7** counterexample: contrary to the claim, a knowledge base with
zero files makes `handle_query` return the error outcome
`"No FAQ content available"` (lines 151-156), not a NO_ANSWER result. -/
theorem empty_kb_error_counterexample :
    handle_query "hello".data [] = QueryResponse.error msgNoContent := by decide

/-- **C7** (amended): for every non-blank query, a knowledge base with
zero files yields the error outcome `"No FAQ content available"` (not an
exception and not NO_ANSWER); and a winning file with zero parsed Q/A
entries is not surfaced as NO_ANSWER either: the decision is `ANSWER`
with a null answer, as at the concrete input `qReset`/`secNoEntries`
(score 1, no parsable entries). -/
theorem degraded_inputs_amended :
    (∀ query : Str, pyBlank query = false →
        handle_query query [] = QueryResponse.error msgNoContent) ∧
    (simulate_claude_analysis qReset [secNoEntries]).decision = Decision.ANSWER ∧
    (simulate_claude_analysis qReset [secNoEntries]).answer = none := by
  refine ⟨?_, ?_, ?_⟩
  · intro query h
    unfold handle_query
    rw [if_neg (by simp [h])]
    rfl
  · rw [simulate_decision, bestScore_qReset, if_pos (by norm_num)]
  · rw [simulate_answer, bestScore_qReset, if_pos (by norm_num), bestSection_qReset]
    have hex : extract_best_answer secNoEntries.2 (lower qReset) = none := by decide
    simp [sectionPayload, hex]

theorem degraded_inputs_amended_witness :
    handle_query "hi".data [] = QueryResponse.error msgNoContent :=
  degraded_inputs_amended.1 "hi".data (by decide)

/-- **C8.** For every query that is empty or whitespace-only and every
knowledge base, `handle_query` returns the distinct empty-query error
outcome (`"Query cannot be empty"`, lines 138-143) before any scoring is
attempted — the result is independent of the knowledge base — and never
returns a NO_ANSWER response for such a query. -/
theorem empty_query_error_before_scoring (query : Str) (kb : List Sec)
    (h : pyBlank query = true) :
    handle_query query kb = QueryResponse.error msgEmptyQuery ∧
    ∀ r : Reasoning, handle_query query kb ≠ QueryResponse.no_answer r := by
  have heq : handle_query query kb = QueryResponse.error msgEmptyQuery := by
    unfold handle_query
    rw [if_pos h]
  refine ⟨heq, fun r hcontra => ?_⟩
  rw [heq] at hcontra
  exact QueryResponse.noConfusion hcontra

theorem empty_query_error_witness :
    handle_query "   ".data [secBilling] = QueryResponse.error msgEmptyQuery :=
  (empty_query_error_before_scoring "   ".data [secBilling] (by decide)).1

/-- **C5** counterexample: contrary to the claim,
`_find_similar_question` does not scan all candidates for the strictly
greatest similarity: it returns the first candidate whose similarity
exceeds 0.7.  Against `qAlpha` the first item has similarity 4/5 and the
second similarity 1, yet the first is returned. -/
theorem dedup_counterexample :
    find_similar_question qAlpha [uqAlphaLong, uqAlphaExact] = some uqAlphaLong ∧
    jaccard_sim qAlpha uqAlphaExact.question > jaccard_sim qAlpha uqAlphaLong.question ∧
    uqAlphaLong ≠ uqAlphaExact := by
  have hu : (tokensOf qAlpha ∪ tokensOf uqAlphaLong.question).card = 5 := by decide
  have hi : (tokensOf qAlpha ∩ tokensOf uqAlphaLong.question).card = 4 := by decide
  have hu2 : (tokensOf qAlpha ∪ tokensOf uqAlphaExact.question).card = 4 := by decide
  have hi2 : (tokensOf qAlpha ∩ tokensOf uqAlphaExact.question).card = 4 := by decide
  refine ⟨?_, ?_, by decide⟩
  · unfold find_similar_question
    rw [findSimilarScan, hu, hi, if_pos (by norm_num)]
  · have h1 : jaccard_sim qAlpha uqAlphaLong.question = 4/5 := by
      unfold jaccard_sim
      rw [hu, hi, if_neg (by norm_num)]
      norm_num
    have h2 : jaccard_sim qAlpha uqAlphaExact.question = 1 := by
      unfold jaccard_sim
      rw [hu2, hi2, if_neg (by norm_num)]
      norm_num
    rw [h1, h2]
    norm_num

/-- **C5** (amended): the Deduplicator computes Jaccard similarity of
normalized token sets against the candidates in order (similarity 0 on an
empty union cannot exceed the threshold), and returns the FIRST candidate
whose similarity exceeds 0.7, short-circuiting the scan there; it reports
no match exactly when no candidate's similarity exceeds 0.7. -/
theorem dedup_first_hit_amended (question_text : Str)
    (items : List UnansweredQuestion) :
    find_similar_question question_text items
      = items.find? (fun e => decide (jaccard_sim question_text e.question > 7/10)) := by
  unfold find_similar_question
  induction items with
  | nil => rfl
  | cons e rest ih =>
    rw [findSimilarScan]
    by_cases hcond : 0 < (tokensOf question_text ∪ tokensOf e.question).card ∧
        ((tokensOf question_text ∩ tokensOf e.question).card : ℚ)
          / ((tokensOf question_text ∪ tokensOf e.question).card : ℚ) > 7/10
    · rw [if_pos hcond]
      have hj : jaccard_sim question_text e.question > 7/10 := by
        unfold jaccard_sim
        rw [if_neg (Nat.pos_iff_ne_zero.mp hcond.1)]
        exact hcond.2
      rw [List.find?_cons_of_pos _ (by simpa using hj)]
    · rw [if_neg hcond, ih]
      have hj : ¬ jaccard_sim question_text e.question > 7/10 := by
        unfold jaccard_sim
        by_cases hu : (tokensOf question_text ∪ tokensOf e.question).card = 0
        · rw [if_pos hu]; norm_num
        · rw [if_neg hu]
          intro hgt
          exact hcond ⟨Nat.pos_of_ne_zero hu, hgt⟩
      rw [List.find?_cons_of_neg _ (by simpa using hj)]

/-- **C6.** `_calculate_priority` evaluates the fixed keyword sets in
the order urgent, high, medium, using case-insensitive substring
containment against the question text; the first set with any hit
determines the priority and later sets are not consulted; when no set
matches the priority is `low`; and the query `"urgent: app is broken"`
yields priority `urgent`. -/
theorem priority_first_hit_wins :
    (∀ q : Str, anyKeyword urgent_keywords (lower q) = true →
        calculate_priority q = "urgent".data) ∧
    (∀ q : Str, anyKeyword urgent_keywords (lower q) = false →
        anyKeyword high_keywords (lower q) = true →
        calculate_priority q = "high".data) ∧
    (∀ q : Str, anyKeyword urgent_keywords (lower q) = false →
        anyKeyword high_keywords (lower q) = false →
        anyKeyword medium_keywords (lower q) = true →
        calculate_priority q = "medium".data) ∧
    (∀ q : Str, anyKeyword urgent_keywords (lower q) = false →
        anyKeyword high_keywords (lower q) = false →
        anyKeyword medium_keywords (lower q) = false →
        calculate_priority q = "low".data) ∧
    calculate_priority "urgent: app is broken".data = "urgent".data := by
  refine ⟨?_, ?_, ?_, ?_, by decide⟩
  · intro q h1
    unfold calculate_priority
    rw [if_pos h1]
  · intro q h1 h2
    unfold calculate_priority
    rw [if_neg (by simp [h1]), if_pos h2]
  · intro q h1 h2 h3
    unfold calculate_priority
    rw [if_neg (by simp [h1]), if_neg (by simp [h2]), if_pos h3]
  · intro q h1 h2 h3
    unfold calculate_priority
    rw [if_neg (by simp [h1]), if_neg (by simp [h2]), if_neg (by simp [h3])]

theorem priority_witness :
    calculate_priority "please help with device setup".data = "medium".data :=
  priority_first_hit_wins.2.2.1 _ (by decide) (by decide) (by decide)

/-- **C9** counterexample: contrary to the claim, a persistence failure
during the candidate scan is not surfaced as a distinct error outcome:
`_find_similar_question` catches the exception and returns `None`
(lines 238-240), exactly the value of the normal no-duplicate outcome. -/
theorem scan_failure_counterexample :
    find_similar_question_r "help".data (Except.error "connection lost".data)
      = find_similar_question_r "help".data (Except.ok []) ∧
    find_similar_question_r "help".data (Except.error "connection lost".data) = none :=
  ⟨rfl, rfl⟩

/-- **C9** (amended): the Deduplicator never fails on well-formed input,
but a persistence failure during the candidate scan is swallowed: it is
reported as `None` — indistinguishable from "no duplicate found" — and
`log_unanswered_question` then proceeds to create a new backlog item and
returns `True`, not an error. -/
theorem scan_failure_amended (question_text msg : Str)
    (db : List UnansweredQuestion) (now newId : ℕ) :
    find_similar_question_r question_text (Except.error msg) = none ∧
    log_unanswered_question question_text db (some msg) now newId
      = { db := db ++ [mkNewQuestion question_text newId now], ok := true } :=
  ⟨rfl, rfl⟩

theorem zip_map_self {α : Type} (f : α → α) (l : List α) :
    ∀ p ∈ l.zip (l.map f), p.2 = f p.1 := by
  induction l with
  | nil => intro p hp; cases hp
  | cons x xs ih =>
    intro p hp
    rw [List.map_cons, List.zip_cons_cons] at hp
    rcases List.mem_cons.mp hp with h | h
    · subst h; rfl
    · exact ih p h

/-- **C10.** When the Deduplicator merges into an existing backlog item,
only that item's frequency (incremented by exactly 1) and last-asked
timestamp change: every row keeps its id, question text, priority,
category, status and business impact (so the priority/category
classifiers are not re-invoked — the merge branch of lines 108-115 never
calls them), rows other than the matched one are unchanged, and no new
row is created (the table length is preserved) while the call still
reports success. -/
theorem dedup_merge_frame (question_text : Str) (db : List UnansweredQuestion)
    (now newId : ℕ) (similar : UnansweredQuestion)
    (hfind : find_similar_question_r question_text (Except.ok db) = some similar) :
    (log_unanswered_question question_text db none now newId).ok = true ∧
    (log_unanswered_question question_text db none now newId).db.length = db.length ∧
    ∀ p ∈ db.zip (log_unanswered_question question_text db none now newId).db,
      p.2.id = p.1.id ∧ p.2.question = p.1.question ∧ p.2.priority = p.1.priority ∧
      p.2.category = p.1.category ∧ p.2.status = p.1.status ∧
      p.2.business_impact = p.1.business_impact ∧
      (p.1.id = similar.id →
        p.2.frequency = p.1.frequency + 1 ∧ p.2.last_asked = now) ∧
      (p.1.id ≠ similar.id → p.2 = p.1) := by
  have hlog : log_unanswered_question question_text db none now newId
      = { db := db.map (fun x =>
            if x.id = similar.id then
              { x with frequency := x.frequency + 1, last_asked := now }
            else x)
          ok := true } := by
    unfold log_unanswered_question
    dsimp only
    rw [hfind]
  rw [hlog]
  refine ⟨rfl, by simp, ?_⟩
  intro p hp
  have h2 := zip_map_self _ db p hp
  rw [h2]
  by_cases hid : p.1.id = similar.id
  · rw [if_pos hid]
    exact ⟨rfl, rfl, rfl, rfl, rfl, rfl, fun _ => ⟨rfl, rfl⟩, fun hne => absurd hid hne⟩
  · rw [if_neg hid]
    exact ⟨rfl, rfl, rfl, rfl, rfl, rfl, fun h => absurd h hid, fun _ => rfl⟩

theorem qReset_matches_uqReset :
    find_similar_question_r qReset (Except.ok [uqReset]) = some uqReset := by
  have hu : (tokensOf qReset ∪ tokensOf uqReset.question).card = 6 := by decide
  have hi : (tokensOf qReset ∩ tokensOf uqReset.question).card = 6 := by decide
  have hfilter : ([uqReset].filter isOpenStatus) = [uqReset] := by decide
  show find_similar_question qReset ([uqReset].filter isOpenStatus) = some uqReset
  rw [hfilter]
  unfold find_similar_question
  rw [findSimilarScan, hu, hi, if_pos (by norm_num)]

theorem dedup_merge_frame_witness :
    (log_unanswered_question qReset [uqReset] none 5 2).db.length
      = ([uqReset] : List UnansweredQuestion).length :=
  (dedup_merge_frame qReset [uqReset] 5 2 uqReset qReset_matches_uqReset).2.1

end FaqSpec
